import Mathlib

/-!
Verification of the qibo custom TensorFlow operators (C++ sources
`cc/ops/custom_ops.cc` and `cc/kernels/initial_state_kernels.cc`) against
their natural-language specification.

The embedding models:
* the operator registrations performed by `REGISTER_OP("InitialState")` and
  the `REGISTER_GATE_OP(NAME)` macro (attributes, inputs, outputs, shape
  function), as structures built in the same builder-call order as the source;
* the CPU specialization of `InitialStateFunctor`, whose body is the single
  statement `inout[0] = T(1, 0);`, as a guarded write on a list (the guard
  makes the embedding total: an out-of-bounds write has no defined result);
* `InitialStateOp::Compute`, which grabs input tensor 0, runs the functor on
  its flat data in place, and sets output 0 to the very same tensor;
* the kernel registrations `REGISTER_CPU(complex64)`, `REGISTER_CPU(complex128)`
  and, under `GOOGLE_CUDA`, `REGISTER_GPU(complex64)`, `REGISTER_GPU(complex128)`;
* the runtime dispatch step that checks the registered type constraint of an
  operation before its kernel runs.

Amplitudes are complex64/complex128 values; the kernels here only copy them or
store the constants (1,0) and (0,0), so they are modelled exactly as pairs of
rationals.
-/

/-- An amplitude: one complex scalar of the state vector, modelled as a pair
(real part, imaginary part). The kernels in scope perform no arithmetic on
amplitudes, only stores of constants, so exact rationals model both the
complex64 and the complex128 instantiation. -/
abbrev Amp := ℚ × ℚ

/-- The constant `T(1, 0)` stored by the initial-state functor. -/
def ampOne : Amp := (1, 0)

/-- The zero amplitude `(0, 0)`. -/
def ampZero : Amp := (0, 0)

/-- Tensor element types that can appear at dispatch. The two complex types are
the ones named in every `Attr("T: {complex64, complex128}")` constraint;
`float32` and `int32` stand for the other runtime types a caller could offer. -/
inductive DType
  | complex64
  | complex128
  | float32
  | int32
deriving DecidableEq, Repr, Fintype

/-- A tensor shape, as handled by the shape-inference context. -/
abbrev Shape := List Nat

/-- The shape-inference context: input shapes supplied by the runtime and
output-shape slots the shape function fills (`c->input(i)` / `c->set_output`). -/
structure InferenceContext where
  inputs : List Shape
  outputs : List (Option Shape)

/-- `c->input(i)`: the shape of input `i`. -/
def InferenceContext.input (c : InferenceContext) (i : Nat) : Shape :=
  c.inputs.getD i []

/-- `c->set_output(i, s)`: store shape `s` in output slot `i`. -/
def InferenceContext.setOutput (c : InferenceContext) (i : Nat) (s : Shape) :
    InferenceContext :=
  { c with outputs := c.outputs.set i (some s) }

/-- The shape function every operation in `custom_ops.cc` registers:
`c->set_output(0, c->input(0)); return Status::OK();`. -/
def identityShapeFn (c : InferenceContext) : InferenceContext :=
  c.setOutput 0 (c.input 0)

/-- The type found in an `Input("name: ...")` or `Output("name: ...")`
declaration: either the type attribute `T` or the concrete `int32`. -/
inductive TypeExpr
  | attrT
  | int32
deriving DecidableEq, Repr

/-- An `Attr(...)` declaration: either a type attribute constrained to a list
of allowed element types (`"T: {complex64, complex128}"`) or a plain integer
attribute (`"nqubits: int"`, `"target: int"`). -/
inductive AttrSpec
  | typeList : String → List DType → AttrSpec
  | intAttr : String → AttrSpec
deriving DecidableEq, Repr

/-- An operation definition as assembled by a `REGISTER_OP` builder chain:
attributes, inputs and outputs in declaration order, plus the shape function
installed by `SetShapeFn`. -/
structure OpDef where
  name : String
  attrs : List AttrSpec
  inputs : List (String × TypeExpr)
  outputs : List (String × TypeExpr)
  shapeFn : InferenceContext → InferenceContext

/-- `REGISTER_OP("InitialState")`: attribute `T: {complex64, complex128}`,
input `in: T`, output `out: T`, identity shape function. -/
def initialStateOpDef : OpDef :=
  { name := "InitialState"
    attrs := [AttrSpec.typeList "T" [DType.complex64, DType.complex128]]
    inputs := [("in", TypeExpr.attrT)]
    outputs := [("out", TypeExpr.attrT)]
    shapeFn := identityShapeFn }

/-- The `REGISTER_GATE_OP(NAME)` macro: attribute `T: {complex64, complex128}`,
inputs `state: T`, `gate: T`, `controls: int32`, attributes `nqubits: int` and
`target: int`, output `out: T`, identity shape function. Attributes are listed
in the order the builder calls occur. -/
def registerGateOp (name : String) : OpDef :=
  { name := name
    attrs := [AttrSpec.typeList "T" [DType.complex64, DType.complex128],
              AttrSpec.intAttr "nqubits", AttrSpec.intAttr "target"]
    inputs := [("state", TypeExpr.attrT), ("gate", TypeExpr.attrT),
               ("controls", TypeExpr.int32)]
    outputs := [("out", TypeExpr.attrT)]
    shapeFn := identityShapeFn }

/-- The five names `REGISTER_GATE_OP` is invoked on in `custom_ops.cc`. -/
def gateOpNames : List String :=
  ["ApplyGate", "ApplyX", "ApplyY", "ApplyZ", "ApplyZPow"]

/-- All operations registered by `custom_ops.cc`. -/
def opRegistry : List OpDef :=
  initialStateOpDef :: gateOpNames.map registerGateOp

/-- Whether element type `ty` satisfies the operation's `T` type constraint. -/
def OpDef.allowsT (op : OpDef) (ty : DType) : Bool :=
  op.attrs.any fun a =>
    match a with
    | AttrSpec.typeList n allowed => n == "T" && allowed.contains ty
    | AttrSpec.intAttr _ => false

/-- A compute device a kernel can be registered for. -/
inductive Device
  | cpu
  | gpu
deriving DecidableEq, Repr, Fintype

/-- The kernel registrations for `InitialState` in
`initial_state_kernels.cc`: `REGISTER_CPU(complex64)`,
`REGISTER_CPU(complex128)` always, and `REGISTER_GPU(complex64)`,
`REGISTER_GPU(complex128)` when the CUDA backend is compiled in. -/
def initialStateKernelRegs (cuda : Bool) : List (Device × DType) :=
  [(Device.cpu, DType.complex64), (Device.cpu, DType.complex128)] ++
    (if cuda then
      [(Device.gpu, DType.complex64), (Device.gpu, DType.complex128)]
    else [])

/-- Modelled from the spec: the kernel-registration translation units for the
five gate operations (ApplyGate, ApplyX, ApplyY, ApplyZ, ApplyZPow) are not
among the sources in scope; per the spec, "Device selection (CPU vs.
accelerator) is a registration-time choice per supported element type; both
device variants must be registered for both supported precisions wherever an
accelerator backend is compiled in" — the same device/precision combinations
the `InitialState` kernel file registers. -/
def gateKernelRegs (cuda : Bool) : List (Device × DType) :=
  initialStateKernelRegs cuda

/-- The CPU specialization `InitialStateFunctor<CPUDevice, T>`: its body is the
single statement `inout[0] = T(1, 0);`. The write is unguarded in the source;
the total embedding returns `none` when index 0 is out of bounds (an empty
buffer), standing for the undefined out-of-bounds store. -/
def initialStateFunctorCPU (inout : List Amp) : Option (List Amp) :=
  if 0 < inout.length then some (inout.set 0 ampOne) else none

/-- Outcome of one full invocation of an operation through the runtime. -/
inductive InvokeResult
  | ok : List Amp → InvokeResult
  | rejected : List Amp → InvokeResult
  | undefinedBehavior : InvokeResult
deriving DecidableEq, Repr

/-- One invocation of `InitialState`: the runtime checks the registered
`T: {complex64, complex128}` constraint at dispatch, before the kernel runs
(`rejected` carries the untouched buffer); on the supported types the CPU
kernel runs with no validation of its own, so an empty buffer hits the
unguarded out-of-bounds write. -/
def invokeInitialState (ty : DType) (buf : List Amp) : InvokeResult :=
  if initialStateOpDef.allowsT ty then
    match initialStateFunctorCPU buf with
    | some out => InvokeResult.ok out
    | none => InvokeResult.undefinedBehavior
  else InvokeResult.rejected buf

/-- The per-call state `InitialStateOp::Compute` acts on: the context's input
tensors are buffer identities (indices into a heap of buffers), outputs are
slots naming a buffer identity, and allocating a fresh buffer would grow the
heap. -/
structure TfContext where
  inputIds : List Nat
  heap : List (List Amp)
  outputs : List (Option Nat)

/-- `InitialStateOp::Compute`: grab input tensor 0, run the functor on its
flat data (mutating the buffer in place, i.e. updating the heap at the same
identity), then `set_output(0, input_tensor)`. No new buffer is allocated. -/
def InitialStateOp.compute (ctx : TfContext) : Option TfContext :=
  match ctx.inputIds[0]? with
  | none => none
  | some id =>
    match ctx.heap[id]? with
    | none => none
    | some buf =>
      match initialStateFunctorCPU buf with
      | none => none
      | some out =>
        some { ctx with
                heap := ctx.heap.set id out
                outputs := ctx.outputs.set 0 (some id) }

/-- Setting index 0 of a nonempty list makes the stored value readable at
index 0. -/
theorem getElem?_set_zero {α : Type} (l : List α) (a : α) (h : 0 < l.length) :
    (l.set 0 a)[0]? = some a := by
  cases l with
  | nil => simp at h
  | cons b rest => simp

/-- Setting index 0 of a list leaves every positive index unchanged. -/
theorem getElem?_set_zero_pos {α : Type} (l : List α) (a : α) (i : Nat)
    (hi : 0 < i) : (l.set 0 a)[i]? = l[i]? := by
  cases l with
  | nil => simp
  | cons b rest =>
    cases i with
    | zero => exact absurd hi (by omega)
    | succ j => simp

/-- On a nonempty buffer the initial-state functor succeeds and returns the
buffer with index 0 overwritten by (1,0). -/
theorem initialStateFunctorCPU_pos (buf : List Amp) (h : 0 < buf.length) :
    initialStateFunctorCPU buf = some (buf.set 0 ampOne) := by
  simp [initialStateFunctorCPU, h]

/-- C1 counterexample: on the length-2 buffer [(0,0), (5,7)] (n = 1, prior
garbage at index 1), InitialState leaves amplitude 1 equal to (5,7), not
(0,0), refuting the claim that every amplitude above 0 ends up (0,0)
regardless of prior contents. -/
theorem initialState_zeroes_tail_counterexample :
    initialStateFunctorCPU [ampZero, ((5 : ℚ), (7 : ℚ))] =
      some [ampOne, ((5 : ℚ), (7 : ℚ))] ∧
    (((5 : ℚ), (7 : ℚ)) : Amp) ≠ ampZero := by
  constructor
  · rfl
  · decide

/-- C1 (amended): for every n ≥ 1 and every amplitude vector of length 2^n
with arbitrary prior contents, InitialState leaves amplitude 0 equal to (1,0)
and leaves every amplitude at index i > 0 equal to its prior value (so the
ground state is produced exactly when the prior contents above index 0 were
already (0,0)). -/
theorem initialState_writes_ground_amplitude (n : Nat) (buf : List Amp)
    (_hn : 1 ≤ n) (hlen : buf.length = 2 ^ n) :
    ∃ out, initialStateFunctorCPU buf = some out ∧
      out[0]? = some ampOne ∧ ∀ i, 0 < i → out[i]? = buf[i]? := by
  have hpos : 0 < buf.length := by
    rw [hlen]; exact Nat.pos_pow_of_pos n (by omega)
  refine ⟨buf.set 0 ampOne, initialStateFunctorCPU_pos buf hpos, ?_, ?_⟩
  · exact getElem?_set_zero buf ampOne hpos
  · intro i hi
    exact getElem?_set_zero_pos buf ampOne i hi

/-- Witness for the amended C1 at n = 1 on the buffer [(0,0), (5,7)]. -/
theorem initialState_writes_ground_amplitude_witness :
    ∃ out, initialStateFunctorCPU [ampZero, ((5 : ℚ), (7 : ℚ))] = some out ∧
      out[0]? = some ampOne ∧
      ∀ i, 0 < i →
        out[i]? = ([ampZero, ((5 : ℚ), (7 : ℚ))] : List Amp)[i]? :=
  initialState_writes_ground_amplitude 1 [ampZero, ((5 : ℚ), (7 : ℚ))]
    (by decide) (by decide)

/-- C2: whenever the CPU InitialState functor runs to a defined result, every
element at an index i > 0 retains exactly its prior value — the functor
writes only the element at index 0. -/
theorem initialStateFunctorCPU_frame (buf out : List Amp)
    (h : initialStateFunctorCPU buf = some out) (i : Nat) (hi : 0 < i) :
    out[i]? = buf[i]? := by
  unfold initialStateFunctorCPU at h
  by_cases hpos : 0 < buf.length
  · rw [if_pos hpos] at h
    injection h with h
    subst h
    exact getElem?_set_zero_pos buf ampOne i hi
  · rw [if_neg hpos] at h
    exact absurd h (by simp)

/-- Witness for C2 on the buffer [(1,0), (2,3), (4,5)] at index 2. -/
theorem initialStateFunctorCPU_frame_witness :
    (initialStateFunctorCPU [ampOne, ((2 : ℚ), (3 : ℚ)), ((4 : ℚ), (5 : ℚ))] =
      some [ampOne, ((2 : ℚ), (3 : ℚ)), ((4 : ℚ), (5 : ℚ))]) ∧
    ([ampOne, ((2 : ℚ), (3 : ℚ)), ((4 : ℚ), (5 : ℚ))] : List Amp)[2]? =
      ([ampOne, ((2 : ℚ), (3 : ℚ)), ((4 : ℚ), (5 : ℚ))] : List Amp)[2]? :=
  ⟨by rfl,
   initialStateFunctorCPU_frame
     [ampOne, ((2 : ℚ), (3 : ℚ)), ((4 : ℚ), (5 : ℚ))]
     [ampOne, ((2 : ℚ), (3 : ℚ)), ((4 : ℚ), (5 : ℚ))] (by rfl) 2 (by decide)⟩

/-- C8: InitialState's single write stays within bounds on every buffer of
length at least 1 (in particular for n = 0 and n = 1, lengths 1 and 2): the
guarded embedding succeeds. -/
theorem initialStateFunctorCPU_safe (buf : List Amp) (h : 1 ≤ buf.length) :
    (initialStateFunctorCPU buf).isSome = true := by
  rw [initialStateFunctorCPU_pos buf h]
  rfl

/-- Witness for C8 on the length-1 buffer (n = 0). -/
theorem initialStateFunctorCPU_safe_witness :
    (initialStateFunctorCPU [((9 : ℚ), (9 : ℚ))]).isSome = true :=
  initialStateFunctorCPU_safe [((9 : ℚ), (9 : ℚ))] (by decide)

/-- C9: the kernel performs no validation — on the empty buffer the unguarded
index-0 write is out of bounds (the total embedding's error branch), and this
branch is reachable through a full invocation at the public interface with a
supported element type. -/
theorem initialState_unvalidated_oob :
    initialStateFunctorCPU ([] : List Amp) = none ∧
    invokeInitialState DType.complex64 [] = InvokeResult.undefinedBehavior := by
  constructor
  · rfl
  · rfl

/-- C3: whenever `InitialStateOp::Compute` completes, the output slot 0 names
the very same buffer identity as input 0, the heap has not grown (no separate
output buffer was allocated), and the mutation happened in place at that
identity. -/
theorem compute_output_aliases_input (ctx : TfContext) (id : Nat)
    (buf : List Amp) (h0 : ctx.inputIds[0]? = some id)
    (h1 : ctx.heap[id]? = some buf) (h2 : 0 < buf.length)
    (h3 : 0 < ctx.outputs.length) :
    ∃ ctx2, InitialStateOp.compute ctx = some ctx2 ∧
      ctx2.outputs[0]? = some (some id) ∧
      ctx2.heap.length = ctx.heap.length ∧
      ctx2.heap[id]? = some (buf.set 0 ampOne) := by
  have hid : id < ctx.heap.length := by
    by_contra hlt
    rw [List.getElem?_eq_none (by omega)] at h1
    exact Option.noConfusion h1
  refine ⟨{ ctx with
            heap := ctx.heap.set id (buf.set 0 ampOne)
            outputs := ctx.outputs.set 0 (some id) }, ?_, ?_, ?_, ?_⟩
  · simp [InitialStateOp.compute, h0, h1, initialStateFunctorCPU_pos buf h2]
  · exact getElem?_set_zero ctx.outputs (some id) h3
  · exact List.length_set ctx.heap id _
  · exact List.getElem?_set_eq_of_lt (buf.set 0 ampOne) hid

/-- Witness for C3 on a context with one input buffer of length 2 and one
output slot. -/
theorem compute_output_aliases_input_witness :
    ∃ ctx2,
      InitialStateOp.compute
        { inputIds := [0], heap := [[ampZero, ampZero]], outputs := [none] } =
        some ctx2 ∧
      ctx2.outputs[0]? = some (some 0) ∧
      ctx2.heap.length =
        (TfContext.heap
          { inputIds := [0], heap := [[ampZero, ampZero]],
            outputs := [none] }).length ∧
      ctx2.heap[0]? = some (([ampZero, ampZero] : List Amp).set 0 ampOne) :=
  compute_output_aliases_input
    { inputIds := [0], heap := [[ampZero, ampZero]], outputs := [none] }
    0 [ampZero, ampZero] (by rfl) (by rfl) (by decide) (by decide)

/-- C4: every operation in the registry installs the identity shape function
(output slot 0 receives input 0's shape unchanged, by a pure computation on
shapes that never runs the kernel), and declares its output's element type
equal to its first input's element type (both are the attribute T). -/
theorem registry_shapeFn_identity (op : OpDef) (hop : op ∈ opRegistry)
    (c : InferenceContext) (_hin : 0 < c.inputs.length)
    (hout : 0 < c.outputs.length) :
    (op.shapeFn c).outputs[0]? = some (some (c.input 0)) ∧
    (op.outputs.getD 0 ("", TypeExpr.int32)).2 =
      (op.inputs.getD 0 ("", TypeExpr.int32)).2 := by
  have hid : (identityShapeFn c).outputs[0]? = some (some (c.input 0)) :=
    getElem?_set_zero c.outputs (some (c.input 0)) hout
  have hcases :
      op = initialStateOpDef ∨ op = registerGateOp "ApplyGate" ∨
      op = registerGateOp "ApplyX" ∨ op = registerGateOp "ApplyY" ∨
      op = registerGateOp "ApplyZ" ∨ op = registerGateOp "ApplyZPow" := by
    simpa [opRegistry, gateOpNames] using hop
  rcases hcases with rfl | rfl | rfl | rfl | rfl | rfl <;>
    exact ⟨hid, rfl⟩

/-- Witness for C4: InitialState on a context with one input of shape [4] and
one empty output slot. -/
theorem registry_shapeFn_identity_witness :
    (initialStateOpDef.shapeFn { inputs := [[4]], outputs := [none] }).outputs[0]? =
      some (some (InferenceContext.input { inputs := [[4]], outputs := [none] } 0)) ∧
    (initialStateOpDef.outputs.getD 0 ("", TypeExpr.int32)).2 =
      (initialStateOpDef.inputs.getD 0 ("", TypeExpr.int32)).2 :=
  registry_shapeFn_identity initialStateOpDef (List.mem_cons_self _ _)
    { inputs := [[4]], outputs := [none] } (by decide) (by decide)

/-- C5: every registered operation's T constraint admits exactly complex64 and
complex128; and with the CUDA backend compiled in, kernels are registered for
both precisions on both CPU and GPU — for InitialState from its kernel file,
and for the gate operations per the spec-modelled registration list. -/
theorem registry_type_constraint_and_kernel_regs (op : OpDef)
    (hop : op ∈ opRegistry) (ty : DType) (dev : Device) (cuda : Bool)
    (hcuda : cuda = true) :
    (op.allowsT ty = true ↔ (ty = DType.complex64 ∨ ty = DType.complex128)) ∧
    (dev, DType.complex64) ∈ initialStateKernelRegs cuda ∧
    (dev, DType.complex128) ∈ initialStateKernelRegs cuda ∧
    (dev, DType.complex64) ∈ gateKernelRegs cuda ∧
    (dev, DType.complex128) ∈ gateKernelRegs cuda := by
  subst hcuda
  constructor
  · have hcases :
        op = initialStateOpDef ∨ op = registerGateOp "ApplyGate" ∨
        op = registerGateOp "ApplyX" ∨ op = registerGateOp "ApplyY" ∨
        op = registerGateOp "ApplyZ" ∨ op = registerGateOp "ApplyZPow" := by
      simpa [opRegistry, gateOpNames] using hop
    rcases hcases with rfl | rfl | rfl | rfl | rfl | rfl <;>
      revert ty <;> decide
  · cases dev <;> decide

/-- Witness for C5: InitialState, complex128, the GPU device, CUDA enabled. -/
theorem registry_type_constraint_and_kernel_regs_witness :
    (initialStateOpDef.allowsT DType.complex128 = true ↔
      (DType.complex128 = DType.complex64 ∨
       DType.complex128 = DType.complex128)) ∧
    (Device.gpu, DType.complex64) ∈ initialStateKernelRegs true ∧
    (Device.gpu, DType.complex128) ∈ initialStateKernelRegs true ∧
    (Device.gpu, DType.complex64) ∈ gateKernelRegs true ∧
    (Device.gpu, DType.complex128) ∈ gateKernelRegs true :=
  registry_type_constraint_and_kernel_regs initialStateOpDef
    (List.mem_cons_self _ _) DType.complex128 Device.gpu true rfl

/-- C6 counterexample: the empty buffer violates the buffer-size precondition
(its length is 2^n for no n, as 2^n ≥ 1), yet the invocation with a supported
element type is not rejected with the buffer untouched — it reaches the
unguarded out-of-bounds write. -/
theorem precondition_rejection_counterexample :
    invokeInitialState DType.complex64 [] = InvokeResult.undefinedBehavior ∧
    InvokeResult.undefinedBehavior ≠ InvokeResult.rejected [] := by
  constructor
  · rfl
  · decide

/-- C6 (amended): an invocation with an unsupported element type is rejected
at dispatch, before any amplitude is touched, with the buffer completely
unchanged; but the kernel itself checks no buffer-size precondition — on a
zero-length buffer the invocation performs an unguarded out-of-bounds write
(undefined behavior) instead of a rejection. -/
theorem initialState_dispatch_rejection (ty : DType) (buf : List Amp)
    (h : initialStateOpDef.allowsT ty = false) :
    invokeInitialState ty buf = InvokeResult.rejected buf ∧
    invokeInitialState DType.complex64 [] = InvokeResult.undefinedBehavior := by
  constructor
  · simp [invokeInitialState, h]
  · rfl

/-- Witness for the amended C6: float32 with a nonempty buffer. -/
theorem initialState_dispatch_rejection_witness :
    invokeInitialState DType.float32 [ampOne] =
      InvokeResult.rejected [ampOne] ∧
    invokeInitialState DType.complex64 [] = InvokeResult.undefinedBehavior :=
  initialState_dispatch_rejection DType.float32 [ampOne] (by rfl)

/-- C7 counterexample: the gate-op registration declares three attributes, not
two — the element-type attribute T stands alongside nqubits and target in the
attr list built by the REGISTER_GATE_OP macro. -/
theorem gateOp_attr_count_counterexample :
    (registerGateOp "ApplyGate").attrs.length = 3 ∧
    (registerGateOp "ApplyGate").attrs.length ≠ 2 ∧
    AttrSpec.typeList "T" [DType.complex64, DType.complex128] ∈
      (registerGateOp "ApplyGate").attrs := by
  refine ⟨rfl, by decide, ?_⟩
  exact List.mem_cons_self _ _

/-- C7 (amended): each of the five gate operations is registered with exactly
three inputs — state of type T, a gate input of type T, an int32 controls
list — exactly three attributes — the element-type constraint T, the qubit
count nqubits, and the target index — and one output of type T. -/
theorem gateOp_signature (name : String) (_h : name ∈ gateOpNames) :
    (registerGateOp name).inputs =
      [("state", TypeExpr.attrT), ("gate", TypeExpr.attrT),
       ("controls", TypeExpr.int32)] ∧
    (registerGateOp name).attrs =
      [AttrSpec.typeList "T" [DType.complex64, DType.complex128],
       AttrSpec.intAttr "nqubits", AttrSpec.intAttr "target"] ∧
    (registerGateOp name).outputs = [("out", TypeExpr.attrT)] :=
  ⟨rfl, rfl, rfl⟩

/-- Witness for the amended C7 at ApplyX. -/
theorem gateOp_signature_witness :
    (registerGateOp "ApplyX").inputs =
      [("state", TypeExpr.attrT), ("gate", TypeExpr.attrT),
       ("controls", TypeExpr.int32)] ∧
    (registerGateOp "ApplyX").attrs =
      [AttrSpec.typeList "T" [DType.complex64, DType.complex128],
       AttrSpec.intAttr "nqubits", AttrSpec.intAttr "target"] ∧
    (registerGateOp "ApplyX").outputs = [("out", TypeExpr.attrT)] :=
  gateOp_signature "ApplyX" (by decide)

/-- C10: ApplyZPow's registration is identical to that of each of the other
four gate operations — same attribute list, same input list, same output
list, same shape function — and its second input is the complex-typed gate
tensor (no separate real scalar input exists among its three inputs). -/
theorem applyZPow_registration_identical (name : String)
    (_h : name ∈ ["ApplyGate", "ApplyX", "ApplyY", "ApplyZ"]) :
    (registerGateOp "ApplyZPow").attrs = (registerGateOp name).attrs ∧
    (registerGateOp "ApplyZPow").inputs = (registerGateOp name).inputs ∧
    (registerGateOp "ApplyZPow").outputs = (registerGateOp name).outputs ∧
    (registerGateOp "ApplyZPow").shapeFn = (registerGateOp name).shapeFn ∧
    (registerGateOp "ApplyZPow").inputs.getD 1 ("", TypeExpr.int32) =
      ("gate", TypeExpr.attrT) ∧
    (registerGateOp "ApplyZPow").inputs.length = 3 :=
  ⟨rfl, rfl, rfl, rfl, rfl, rfl⟩

/-- Witness for C10 against ApplyGate. -/
theorem applyZPow_registration_identical_witness :
    (registerGateOp "ApplyZPow").attrs = (registerGateOp "ApplyGate").attrs ∧
    (registerGateOp "ApplyZPow").inputs = (registerGateOp "ApplyGate").inputs ∧
    (registerGateOp "ApplyZPow").outputs =
      (registerGateOp "ApplyGate").outputs ∧
    (registerGateOp "ApplyZPow").shapeFn =
      (registerGateOp "ApplyGate").shapeFn ∧
    (registerGateOp "ApplyZPow").inputs.getD 1 ("", TypeExpr.int32) =
      ("gate", TypeExpr.attrT) ∧
    (registerGateOp "ApplyZPow").inputs.length = 3 :=
  applyZPow_registration_identical "ApplyGate" (by decide)
